import Mathlib

/-!
Verification of the `LegalAIAssistant` core of the KanoonSathi backend
(`backend/legal_ai.py`): document classification, entity extraction,
applicable-law selection, templated analysis composition, and the
translation cache path.

The Python `re` module and `random.sample` are external libraries: regex
match counting for the classifier is a parameter (`count`), `random.sample`
is a parameter (`sample`) constrained by hypotheses, and for the concrete
entity-extraction scenario a small backtracking regex engine with Python
`re` semantics (leftmost match, greedy quantifiers, left-biased
alternation, word boundaries) is defined below and the source patterns are
transcribed into its syntax.

Numbers: Python floats are modelled as exact rationals; the division
`len(matches) / (len(text.split()) / 100)` raises `ZeroDivisionError` when
the text has no words, modelled as `Option.none`.
-/

/-- Association-list lookup with Python `dict` first-key semantics. -/
def alookup {α : Type} : List (String × α) → String → Option α
  | [], _ => none
  | (k', v) :: rest, k => if k' = k then some v else alookup rest k

/-- Python `dict` assignment `d[k] = v`: replace in place, else append. -/
def dictInsert : List (String × String) → String → String → List (String × String)
  | [], k, v => [(k, v)]
  | (k', v') :: rest, k, v =>
    if k' = k then (k', v) :: rest else (k', v') :: dictInsert rest k v

/-- Boolean test that `p` occurs at the front of `l`. -/
def startsList : List Char → List Char → Bool
  | [], _ => true
  | _ :: _, [] => false
  | p :: ps, c :: cs => p == c && startsList ps cs

/-- Python `s.startswith(t)`. -/
def strStartsWith (s t : String) : Bool := startsList t.data s.data

/-- Python `s.endswith(t)`. -/
def strEndsWith (s t : String) : Bool := startsList t.data.reverse s.data.reverse

/-- Python `t in s` (substring containment). -/
def containsList (sub : List Char) : List Char → Bool
  | [] => startsList sub []
  | c :: rest => startsList sub (c :: rest) || containsList sub rest

/-- Python `t in s` on strings. -/
def containsSub (s t : String) : Bool := containsList t.data s.data

/-- One pass of Python `s.replace(pat, rep)` over a character list.
Fuel is the list length; each step consumes at least one character.
(Python's special behaviour for the empty pattern is not reproduced; no
phrase key in the source tables is empty.) -/
def replaceListAux (pat rep : List Char) : Nat → List Char → List Char
  | 0, l => l
  | _ + 1, [] => []
  | fuel + 1, c :: rest =>
    if pat ≠ [] && startsList pat (c :: rest) then
      rep ++ replaceListAux pat rep fuel ((c :: rest).drop pat.length)
    else
      c :: replaceListAux pat rep fuel rest

/-- Python `s.replace(pat, rep)` (replace every non-overlapping occurrence,
left to right). -/
def pyReplace (s pat rep : String) : String :=
  ⟨replaceListAux pat.data rep.data s.data.length s.data⟩

/-- Word counter with Python `str.split()` semantics: number of maximal
nonempty runs of non-whitespace characters. -/
def countWordsAux : List Char → Bool → Nat
  | [], _ => 0
  | c :: rest, inWord =>
    if c.isWhitespace then countWordsAux rest false
    else if inWord then countWordsAux rest true
    else 1 + countWordsAux rest true

/-- `len(text.split())` for Python `str.split()` with no separator. -/
def countWords (s : String) : Nat := countWordsAux s.data false

/-- `self.document_patterns` (source lines 35-44): the static document-type
pattern table, in source order. The regex strings are kept verbatim as
data; the classifier takes the match-counting function (`re.findall`
composed with `len`) as a parameter. -/
def document_patterns : List (String × String) := [
  ("contract", "(?i)(agreement|contract|terms|conditions|parties|clause|hereby|agree|consideration)"),
  ("judgment", "(?i)(judgment|court|ruling|judge|versus|petitioner|respondent|plaintiff|defendant|bench|justice|order|decree)"),
  ("legislation", "(?i)(act|section|statute|law|regulation|provision|legislature|parliament|amendment|clause|bill)"),
  ("will", "(?i)(testament|will|bequeath|estate|beneficiary|executor|probate|heir|inheritance|devise|legacy)"),
  ("affidavit", "(?i)(affidavit|sworn|deponent|oath|affirm|verification|notary|attested)"),
  ("notice", "(?i)(notice|hereby|inform|attention|pursuant|announce|adjourned|meeting)"),
  ("legal_opinion", "(?i)(opinion|advice|counsel|consult|recommended|suggested|pursuant to)"),
  ("mou", "(?i)(memorandum|understanding|mou|intent|non-binding)")]

/-- Python `min(a, b)`: the first argument wins ties. -/
def pymin (a b : ℚ) : ℚ := if a ≤ b then a else b

/-- The `scores` dict built by `_identify_document_type` (lines 890-894):
for each document type, `min(len(matches) / (len(text.split()) / 100), 1.0)`.
Only meaningful when the text has at least one word. -/
def classifierScores (count : String → String → Nat) (text : String) : List (String × ℚ) :=
  document_patterns.map
    (fun p => (p.1, pymin ((count p.2 text : ℚ) / ((countWords text : ℚ) / 100)) 1))

/-- One step of Python `max(scores, key=scores.get)`: keep the current best
unless the next value is strictly larger (so the first maximum wins). -/
def maxStep (best q : String × ℚ) : String × ℚ := if best.2 < q.2 then q else best

/-- Python `max(scores, key=scores.get)` paired with `scores[best_type]`:
the first key-value pair attaining the maximal value, in iteration
(insertion) order. -/
def maxKeyFirst : List (String × ℚ) → Option (String × ℚ)
  | [] => none
  | p :: rest => some (rest.foldl maxStep p)

/-- `_identify_document_type` (source lines 880-901). Returns `none` when
the score computation raises `ZeroDivisionError`, which happens exactly
when `text.split()` is empty (the pattern table is nonempty, so the first
loop iteration already divides by `0 / 100 = 0.0`). -/
def identify_document_type (count : String → String → Nat) (text : String) :
    Option (String × ℚ) :=
  if countWords text = 0 then none
  else
    match maxKeyFirst (classifierScores count text) with
    | none => some ("unknown", 0)
    | some best => some best

/-- `self.legal_frameworks` (source lines 47-62): statute lists per
jurisdiction and category, in source order. -/
def legal_frameworks : List (String × List (String × List String)) := [
  ("india", [
    ("civil", ["Code of Civil Procedure, 1908", "Indian Contract Act, 1872",
      "Transfer of Property Act, 1882", "Specific Relief Act, 1963", "Indian Evidence Act, 1872"]),
    ("criminal", ["Indian Penal Code, 1860", "Code of Criminal Procedure, 1973",
      "Criminal Law Amendment Act"]),
    ("commercial", ["Companies Act, 2013", "Insolvency and Bankruptcy Code, 2016",
      "Competition Act, 2002", "Foreign Exchange Management Act, 1999"]),
    ("property", ["Registration Act, 1908", "Real Estate (Regulation and Development) Act, 2016"]),
    ("family", ["Hindu Marriage Act, 1955", "Special Marriage Act, 1954",
      "Indian Succession Act, 1925"])]),
  ("us", [
    ("civil", ["Federal Rules of Civil Procedure", "Uniform Commercial Code"]),
    ("criminal", ["Federal Criminal Code and Rules", "Model Penal Code"]),
    ("commercial", ["Securities Act of 1933", "Securities Exchange Act of 1934",
      "Sarbanes-Oxley Act"])])]

/-- `category_map` in `_get_applicable_laws` (source lines 973-982). -/
def category_map : List (String × List String) := [
  ("contract", ["civil", "commercial"]),
  ("judgment", ["civil", "criminal"]),
  ("legislation", []),
  ("will", ["civil", "family"]),
  ("affidavit", ["civil", "criminal"]),
  ("notice", ["civil", "commercial"]),
  ("legal_opinion", ["civil", "commercial"]),
  ("mou", ["commercial"])]

/-- The `applicable_laws` list accumulated by `_get_applicable_laws`
(source lines 984-988) before the size check: statutes of all mapped
categories present in the jurisdiction table, category order first, then
intra-category order. -/
def applicable_laws_all (doc_type jurisdiction : String) : List String :=
  let jurisdiction_data := (alookup legal_frameworks jurisdiction).getD []
  let categories := (alookup category_map doc_type).getD []
  categories.foldl (fun acc category =>
    match alookup jurisdiction_data category with
    | some laws => acc ++ laws
    | none => acc) []

/-- `_get_applicable_laws` (source lines 957-993). `sample` models the
library call `random.sample(applicable_laws, 3)`; theorems constrain it
only through the length and membership laws of `random.sample`. -/
def get_applicable_laws (sample : List String → List String)
    (doc_type jurisdiction : String) : List String :=
  let applicable_laws := applicable_laws_all doc_type jurisdiction
  if applicable_laws.length > 3 then sample applicable_laws else applicable_laws

/-- `_generate_contract_analysis` (source lines 1049-1068). -/
def generate_contract_analysis (_text : String) : String :=
  "This document appears to be a legal contract. Here\x27s a detailed analysis:\n\n1. Contract Structure and Validity:\n   - The document contains standard contractual elements including parties\x27 details, consideration clauses, terms of agreement, and signature requirements.\n   - The agreement appears to establish legally binding obligations between the parties under contract law principles.\n\n2. Key Legal Provisions:\n   - Terms and conditions governing the relationship between parties are outlined with specific performance requirements.\n   - Liability provisions and risk allocation measures are included to protect the parties\x27 interests.\n   - Termination mechanisms and conditions for contract renewal are specified.\n\n3. Rights and Obligations:\n   - The respective duties of each party are delineated with specific performance metrics and timelines.\n   - Compliance requirements with relevant laws and regulations are established.\n   - Remedy mechanisms in case of breach are provided with specific consequences.\n\n4. Legal Implications:\n   - The contract creates legally enforceable rights that can be upheld through legal proceedings if necessary.\n   - Under contract law, material breaches may entitle the non-breaching party to remedies including specific performance or damages.\n   - Ambiguous terms may be interpreted by courts according to standard principles of contractual interpretation."

/-- `_generate_judgment_analysis` (source lines 1070-1090). -/
def generate_judgment_analysis (_text : String) : String :=
  "This document appears to be a legal judgment. Here\x27s a detailed analysis:\n\n1. Judicial Findings:\n   - The court has ruled on specific legal questions presented in the case with binding authority.\n   - The judgment contains findings of fact based on evidence presented and legal conclusions applying relevant law.\n   - The court\x27s reasoning demonstrates application of legal principles to the specific circumstances of the case.\n\n2. Legal Reasoning and Precedent:\n   - The court applies established legal principles and cites relevant statutory provisions and case law.\n   - The judgment may establish or reinforce legal precedent within the appropriate jurisdiction.\n   - The court distinguishes or applies existing case law to develop its reasoning.\n\n3. Relief Granted:\n   - The court awards specific remedies or relief to the prevailing party.\n   - The judgment specifies any monetary damages, equitable relief, or specific performance required.\n   - Terms for enforcement of the judgment are outlined with timeframes for compliance.\n\n4. Appeal Implications:\n   - The judgment may be subject to appeal within specified timeframes according to applicable procedural rules.\n   - Grounds for potential appeal would typically require identification of errors in law or procedure.\n   - The finality of the judgment depends on whether appeal periods have expired."

/-- `_generate_legislation_analysis` (source lines 1092-1112). -/
def generate_legislation_analysis (_text : String) : String :=
  "This document appears to be legislation or a statutory instrument. Here\x27s a detailed analysis:\n\n1. Legislative Purpose and Scope:\n   - The statute establishes legal rules, rights, and obligations within its defined jurisdiction and subject matter.\n   - The legislation identifies its purpose and the public policy objectives it seeks to achieve.\n   - Jurisdictional boundaries and application scope are defined, including territorial and temporal limitations.\n\n2. Statutory Provisions:\n   - The legislation contains definitional sections establishing key terms and concepts for interpretation.\n   - Substantive provisions create rights, obligations, prohibitions, and permissions for affected parties.\n   - Administrative mechanisms and procedural requirements for implementation are established.\n\n3. Compliance Requirements:\n   - The statute imposes specific compliance obligations on affected individuals, businesses, or organizations.\n   - Penalties and enforcement mechanisms for non-compliance are specified with relevant authorities.\n   - Transitional provisions may address the relationship between this law and previous legal frameworks.\n\n4. Legal Implications:\n   - The legislation may preempt or modify existing common law or statutory provisions in its field.\n   - Courts will interpret this legislation according to established principles of statutory interpretation.\n   - Constitutional or other higher-order legal principles may affect the interpretation and validity of certain provisions."

/-- `_generate_will_analysis` (source lines 1114-1134). -/
def generate_will_analysis (_text : String) : String :=
  "This document appears to be a last will and testament. Here\x27s a detailed analysis:\n\n1. Testamentary Capacity and Formalities:\n   - The document purports to be a valid will expressing the testator\x27s intentions regarding asset distribution.\n   - Formal requirements including signature, witnesses, and attestation clauses appear to be addressed.\n   - The testator\x27s capacity at the time of execution is a critical factor for validity.\n\n2. Asset Distribution:\n   - Specific bequests allocate particular assets or amounts to named beneficiaries.\n   - Residuary clauses address the distribution of remaining assets not specifically bequeathed.\n   - Contingent provisions may address scenarios such as beneficiaries predeceasing the testator.\n\n3. Administration Provisions:\n   - The will appoints executors/personal representatives with powers to administer the estate.\n   - Instructions regarding probate procedures and asset management are provided.\n   - Tax considerations and payment of debts and expenses are addressed.\n\n4. Legal Implications:\n   - The will becomes effective upon the testator\x27s death and must be submitted for probate.\n   - Potential challenges could arise based on capacity, undue influence, fraud, or improper execution.\n   - Applicable succession laws may impact the interpretation and implementation of the will\x27s provisions."

/-- `_generate_affidavit_analysis` (source lines 1136-1156). -/
def generate_affidavit_analysis (_text : String) : String :=
  "This document appears to be an affidavit. Here\x27s a detailed analysis:\n\n1. Purpose and Structure:\n   - This sworn statement is made for official legal purposes and carries potential perjury consequences if false.\n   - The document identifies the deponent (affiant) and establishes their competence to make the statements.\n   - The affidavit follows standard format requirements with proper verification clauses.\n\n2. Factual Assertions:\n   - The deponent makes specific factual declarations under oath based on personal knowledge or information and belief.\n   - Supporting exhibits or documents may be referenced and incorporated into the affidavit.\n   - The statements are made with the understanding of their legal significance in proceedings.\n\n3. Authentication:\n   - The affidavit contains notarial or other official authentication verifying the deponent\x27s identity.\n   - Proper execution through signature and oath or affirmation is essential to validity.\n   - The document follows jurisdictional requirements for affidavit formalities.\n\n4. Legal Implications:\n   - The affidavit constitutes evidence that may be used in legal proceedings subject to applicable rules.\n   - False statements could expose the deponent to criminal penalties for perjury or false swearing.\n   - The affidavit\x27s weight as evidence may depend on factors such as specificity, corroboration, and credibility."

/-- `_generate_notice_analysis` (source lines 1158-1178). -/
def generate_notice_analysis (_text : String) : String :=
  "This document appears to be a legal notice. Here\x27s a detailed analysis:\n\n1. Purpose and Type:\n   - The notice serves to formally inform specific parties of legal rights, obligations, or actions.\n   - It establishes formal communication for procedural or substantive legal purposes.\n   - The notice type (e.g., demand, statutory, termination) determines its specific legal effect.\n\n2. Content Requirements:\n   - The notice identifies relevant parties, subject matter, and the legal basis for the communication.\n   - Specific legal requirements for content appear to be addressed based on the notice type.\n   - Time-sensitive information and deadlines are stated with appropriate specificity.\n\n3. Service and Delivery:\n   - The method of delivery is designed to satisfy legal requirements for effective notice.\n   - Documentation of service may be required to establish proper notice was given.\n   - Timing requirements for advance notice appear to be addressed.\n\n4. Legal Implications:\n   - The notice triggers legal consequences, rights, or obligations specified by relevant law.\n   - Failure to respond appropriately may result in default or waiver of certain rights.\n   - The notice may be a prerequisite for subsequent legal proceedings or actions."

/-- `_generate_legal_opinion_analysis` (source lines 1180-1200). -/
def generate_legal_opinion_analysis (_text : String) : String :=
  "This document appears to be a legal opinion. Here\x27s a detailed analysis:\n\n1. Structure and Purpose:\n   - This document provides professional legal analysis on specific questions or scenarios.\n   - It identifies the requesting party, relevant facts, and legal questions presented.\n   - The opinion serves to guide decision-making based on legal risk assessment.\n\n2. Legal Analysis:\n   - The opinion applies relevant statutory provisions, case law, and legal principles to the specific scenario.\n   - Alternative interpretations and potential outcomes are evaluated with probability assessments.\n   - Legal authorities are cited to support the reasoning and conclusions reached.\n\n3. Risk Assessment:\n   - The opinion identifies legal risks, ambiguities, and potential challenges to the proposed course of action.\n   - Recommendations for risk mitigation strategies are provided based on the legal analysis.\n   - Limitations and assumptions underlying the analysis are explicitly stated.\n\n4. Legal Implications:\n   - While the opinion provides guidance, ultimate decision-making responsibility remains with the client.\n   - The opinion may establish a basis for the \x27advice of counsel\x27 defense in certain circumstances.\n   - The analysis is time-specific and subject to change based on legal developments or factual changes."

/-- `_generate_mou_analysis` (source lines 1202-1222). -/
def generate_mou_analysis (_text : String) : String :=
  "This document appears to be a Memorandum of Understanding (MOU). Here\x27s a detailed analysis:\n\n1. Nature and Enforceability:\n   - This document establishes a preliminary framework for a relationship between the parties.\n   - The MOU may contain both binding and non-binding provisions depending on specific language used.\n   - Its enforceability depends on whether essential elements of a contract are present and the parties\x27 intent.\n\n2. Key Components:\n   - The document outlines the parties\x27 shared understanding and objectives for potential collaboration.\n   - Preliminary terms, responsibilities, and contributions of each party are identified.\n   - The framework for developing a formal agreement may be established with timelines.\n\n3. Limitations and Conditions:\n   - Conditional language may limit legal obligations pending further negotiation or due diligence.\n   - Confidentiality provisions and intellectual property protections may be legally binding.\n   - Termination provisions outline how parties may exit the preliminary relationship.\n\n4. Legal Implications:\n   - Courts may enforce certain provisions if they demonstrate the parties\x27 intent to be bound.\n   - Even if not fully enforceable, the MOU may create liability under doctrines such as promissory estoppel if relied upon.\n   - The MOU may establish good faith negotiation obligations toward a definitive agreement."

/-- The generic fallback analysis for unidentified document types
(source lines 1027-1035). -/
def generic_analysis_text : String :=
  "This appears to be a legal document. Based on the content, here\x27s a general analysis:\n\n1. Key points covered in the document include agreements between parties, obligations, rights, and potential legal implications.\n\n2. For a comprehensive understanding, I recommend consulting with a legal professional specialized in this area of law to interpret the specific implications for your situation.\n\n3. Before taking any action based on this document, ensure that you understand all terms and conditions, as legal documents often contain nuanced language with significant legal consequences."

/-- The disclaimer paragraph appended unconditionally at the end of
`_generate_legal_analysis` (source line 1045), leading blank line
included. -/
def disclaimer_text : String :=
  "\n\nDISCLAIMER: This analysis is provided for informational purposes only and should not be construed as legal advice. Please consult with a qualified legal professional for advice specific to your situation."

/-- The numbered law list `f"{i}. {law}\n"` built by the
`for i, law in enumerate(applicable_laws, 1)` loop (source lines
1041-1042). -/
def numbered_laws : Nat → List String → String
  | _, [] => ""
  | i, law :: rest => toString i ++ ". " ++ law ++ "\n" ++ numbered_laws (i + 1) rest

/-- `_generate_legal_analysis` (source lines 995-1047): per-type template,
then the applicable-law section when non-empty, then the disclaimer. -/
def generate_legal_analysis (sample : List String → List String)
    (doc_type text : String) : String :=
  let analysis :=
    if doc_type = "contract" then generate_contract_analysis text
    else if doc_type = "judgment" then generate_judgment_analysis text
    else if doc_type = "legislation" then generate_legislation_analysis text
    else if doc_type = "will" then generate_will_analysis text
    else if doc_type = "affidavit" then generate_affidavit_analysis text
    else if doc_type = "notice" then generate_notice_analysis text
    else if doc_type = "legal_opinion" then generate_legal_opinion_analysis text
    else if doc_type = "mou" then generate_mou_analysis text
    else generic_analysis_text
  let applicable_laws := get_applicable_laws sample doc_type "india"
  let analysis :=
    if applicable_laws = [] then analysis
    else analysis ++ "\n\nApplicable legal frameworks that may be relevant:\n"
      ++ numbered_laws 1 applicable_laws
  analysis ++ disclaimer_text

/-- `self.language_code_map` (source lines 68-92). -/
def language_code_map : List (String × String) := [
  ("en", "eng_Latn"), ("hi", "hin_Deva"), ("bn", "ben_Beng"), ("te", "tel_Telu"),
  ("mr", "mar_Deva"), ("ta", "tam_Taml"), ("ur", "urd_Arab"), ("gu", "guj_Gujr"),
  ("kn", "kan_Knda"), ("ml", "mal_Mlym"), ("or", "ory_Orya"), ("pa", "pan_Guru"),
  ("as", "asm_Beng"), ("mai", "mai_Deva"), ("sat", "sat_Olck"), ("ks", "kas_Arab"),
  ("ne", "npi_Deva"), ("sd", "snd_Arab"), ("kok", "kok_Deva"), ("doi", "doi_Deva"),
  ("mni", "mni_Beng"), ("sa", "san_Deva"), ("bo", "bod_Tibt")]

/-- The fixed diagnostic placeholder for a failed translation
(source line 861). -/
def translation_placeholder : String :=
  "[Translation using open-source LLM failed. Please install transformers library with \x27pip install transformers sentencepiece\x27 and ensure you have enough memory.]"

/-- The dictionary fallback of `handle_translation_request` (source lines
203-850). The contents of the two phrase tables (`analysis_translations`,
source lines 205-608, and `sample_phrases`, source lines 610-816) are
passed in as data; the claims hold for every table content. Returns the
fallback `translated_text`, which stays `""` when no phrase applies. -/
def dictionary_fallback
    (sample_phrases analysis_translations : List (String × List (String × String)))
    (text target_lang : String) : String :=
  match alookup sample_phrases target_lang with
  | none => ""
  | some phrases =>
    if containsSub text "This document appears to be a legal contract"
        && containsSub text "Here\x27s a detailed analysis" then
      let t := phrases.foldl (fun acc p => pyReplace acc p.1 p.2) text
      match alookup analysis_translations target_lang with
      | some section_translations =>
        section_translations.foldl (fun acc p => pyReplace acc p.1 p.2) t
      | none => t
    else
      match alookup phrases text with
      | some tr => tr
      | none =>
        let temp_text := phrases.foldl (fun acc p => pyReplace acc p.1 p.2) text
        if temp_text ≠ text then temp_text else ""

/-- The neural-model part of a cache miss (source lines 175-200). The
`transformers` model is external: `neural = none` models
`_load_translation_model()` returning `False`; an inner `none` models an
exception during generation, demoted to `""` by the `except` handler. -/
def neural_translation (neural : Option (String → String → Option String))
    (text target_lang : String) : String :=
  match neural with
  | none => ""
  | some generate =>
    match alookup language_code_map target_lang with
    | none => ""
    | some target_lang_code => (generate text target_lang_code).getD ""

/-- The `translated_text` computed on a cache miss (source lines 173-850):
the neural attempt, then the dictionary fallback when the result is still
empty. -/
def attempt_translation (neural : Option (String → String → Option String))
    (sample_phrases analysis_translations : List (String × List (String × String)))
    (text target_lang : String) : String :=
  let t1 := neural_translation neural text target_lang
  if t1 = "" then
    dictionary_fallback sample_phrases analysis_translations text target_lang
  else t1

/-- The translation response dict (source lines 872-878), without the
audio-file path (a timestamped I/O artifact outside this embedding). -/
structure TransResult where
  translated_text : String
  source_text : String
  source_lang : String
  target_lang : String
deriving DecidableEq, Repr

/-- One `handle_translation_request` call's observable outcome: the
response, the translation cache afterwards, whether the neural-model path
ran, whether the dictionary-fallback block ran, and whether
`_save_translation_cache` was triggered. -/
structure TransOutcome where
  result : TransResult
  cache : List (String × String)
  modelInvoked : Bool
  fallbackInvoked : Bool
  savedCache : Bool
deriving DecidableEq, Repr

/-- `handle_translation_request` (source lines 154-878): cache lookup on
the key `f"{text}_{target_lang}"`; on a miss, neural attempt then
dictionary fallback; a nonempty non-placeholder result is stored in the
cache, and `_save_translation_cache` runs when the cache size after the
insertion is a multiple of 10; an empty result becomes the placeholder. -/
def handle_translation_request (neural : Option (String → String → Option String))
    (sample_phrases analysis_translations : List (String × List (String × String)))
    (cache : List (String × String)) (text target_lang : String) : TransOutcome :=
  let cache_key := text ++ "_" ++ target_lang
  match alookup cache cache_key with
  | some cached =>
    let translated_text := if cached = "" then translation_placeholder else cached
    ⟨⟨translated_text, text, "en", target_lang⟩, cache, false, false, false⟩
  | none =>
    let t := attempt_translation neural sample_phrases analysis_translations text target_lang
    let store := t ≠ "" && !(strStartsWith t "[Translation")
    let cache2 := if store then dictInsert cache cache_key t else cache
    let saved := store && decide (cache2.length % 10 = 0)
    let translated_text := if t = "" then translation_placeholder else t
    ⟨⟨translated_text, text, "en", target_lang⟩, cache2, neural.isSome,
      decide (neural_translation neural text target_lang = ""), saved⟩

/-- Regex abstract syntax covering the constructs used by the entity
patterns of `_extract_legal_entities`: literal characters, character
classes given as closed ranges, left-biased alternation, concatenation,
greedy star, and the word-boundary assertion. Optionals and bounded
repetitions are derived forms. -/
inductive RE where
  | fail : RE
  | emp : RE
  | ch : Char → RE
  | cls : List (Char × Char) → RE
  | alt : RE → RE → RE
  | cat : RE → RE → RE
  | star : RE → RE
  | wordB : RE

/-- Character-class membership: any of the closed ranges contains `c`. -/
def inRanges (ranges : List (Char × Char)) (c : Char) : Bool :=
  ranges.any (fun p => decide (p.1 ≤ c) && decide (c ≤ p.2))

/-- Python regex word character `\w` for ASCII: `[A-Za-z0-9_]`. -/
def isWordChar (c : Char) : Bool :=
  inRanges [('A', 'Z'), ('a', 'z'), ('0', '9'), ('_', '_')] c

/-- Word-ness of an optional character; outside the text counts as
non-word. -/
def isWordOpt : Option Char → Bool
  | none => false
  | some c => isWordChar c

/-- `\b`: the word-ness of the previous and next characters differ. -/
def atWordBoundary (prev : Option Char) (next : Option Char) : Bool :=
  isWordOpt prev != isWordOpt next

/-- Backtracking matcher with Python `re` semantics: alternation prefers
its left branch, star is greedy, a starred body must consume input to
iterate. Continuation-passing: `k` receives the last consumed character
(for `\b`) and the remaining input; the first overall success in
backtracking order is returned, as in CPython's engine. `fuel` bounds the
call depth. -/
def reM : Nat → RE → Option Char → List Char →
    (Option Char → List Char → Option (List Char)) → Option (List Char)
  | 0, _, _, _, _ => none
  | fuel + 1, r, prev, s, k =>
    match r with
    | RE.fail => none
    | RE.emp => k prev s
    | RE.ch c =>
      match s with
      | [] => none
      | a :: rest => if a = c then k (some a) rest else none
    | RE.cls ranges =>
      match s with
      | [] => none
      | a :: rest => if inRanges ranges a then k (some a) rest else none
    | RE.alt r1 r2 =>
      (reM fuel r1 prev s k).orElse (fun _ => reM fuel r2 prev s k)
    | RE.cat r1 r2 =>
      reM fuel r1 prev s (fun p2 s2 => reM fuel r2 p2 s2 k)
    | RE.star r1 =>
      (reM fuel r1 prev s (fun p2 s2 =>
        if s2.length < s.length then reM fuel (RE.star r1) p2 s2 k
        else none)).orElse (fun _ => k prev s)
    | RE.wordB => if atWordBoundary prev s.head? then k prev s else none

/-- `re.finditer` scanning: at each position try the pattern; on a match,
emit the matched span and resume after it (after an empty match, advance
one character). `prev` is the character before the current position. -/
def findAllAux (r : RE) : Nat → Option Char → List Char → List (List Char)
  | 0, _, _ => []
  | fuel + 1, prev, s =>
    match reM 100000 r prev s (fun _ rest => some rest) with
    | some rest =>
      let m := s.take (s.length - rest.length)
      match m with
      | [] =>
        match s with
        | [] => [[]]
        | c :: srest => [] :: findAllAux r fuel (some c) srest
      | _ :: _ => m :: findAllAux r fuel m.getLast? rest
    | none =>
      match s with
      | [] => []
      | c :: srest => findAllAux r fuel (some c) srest

/-- `[m.group() for m in re.finditer(pattern, text)]`. -/
def pyFindAll (r : RE) (text : String) : List String :=
  (findAllAux r (text.data.length + 1) none text.data).map (fun l => ⟨l⟩)

/-- Concatenation of a pattern list. -/
def rcatL (l : List RE) : RE := l.foldr RE.cat RE.emp

/-- A literal string pattern. -/
def rstr (s : String) : RE := rcatL (s.data.map RE.ch)

/-- Alternation of a pattern list, left-biased like Python `|`. -/
def raltL : List RE → RE
  | [] => RE.fail
  | [r] => r
  | r :: rest => RE.alt r (raltL rest)

/-- Greedy `r?`. -/
def ropt (r : RE) : RE := RE.alt r RE.emp

/-- Greedy `r+`. -/
def rplus (r : RE) : RE := RE.cat r (RE.star r)

/-- `r{n}` (exactly n). -/
def rrep : RE → Nat → RE
  | _, 0 => RE.emp
  | r, n + 1 => RE.cat r (rrep r n)

/-- Greedy `r{0,n}`: prefer more repetitions. -/
def rupto : RE → Nat → RE
  | _, 0 => RE.emp
  | r, n + 1 => RE.alt (RE.cat r (rupto r n)) RE.emp

/-- Greedy `r{m,n}`. -/
def rrange (r : RE) (m n : Nat) : RE := RE.cat (rrep r m) (rupto r (n - m))

/-- Greedy `r{m,}`. -/
def ratleast (r : RE) (m : Nat) : RE := RE.cat (rrep r m) (RE.star r)

/-- `\d`. -/
def clsD : RE := RE.cls [('0', '9')]

/-- The whitespace ranges of `\s` (ASCII). -/
def spaceRanges : List (Char × Char) :=
  [(' ', ' '), ('\t', '\t'), ('\n', '\n'), ('\x0b', '\x0b'), ('\x0c', '\x0c'), ('\r', '\r')]

/-- `\s`. -/
def clsS : RE := RE.cls spaceRanges

/-- `\w`. -/
def clsW : RE := RE.cls [('A', 'Z'), ('a', 'z'), ('0', '9'), ('_', '_')]

/-- `[A-Z]`. -/
def clsUp : RE := RE.cls [('A', 'Z')]

/-- `[a-z]`. -/
def clsLo : RE := RE.cls [('a', 'z')]

/-- The apostrophe character (escaped in the source pattern `Hon\'?ble`). -/
def apos : Char := Char.ofNat 39

/-- `"date"` entity pattern (source line 918). -/
def date_re : RE := raltL [
  rcatL [RE.wordB,
    raltL [RE.cat (rstr "Jan") (ropt (rstr "uary")), RE.cat (rstr "Feb") (ropt (rstr "ruary")),
      RE.cat (rstr "Mar") (ropt (rstr "ch")), RE.cat (rstr "Apr") (ropt (rstr "il")),
      rstr "May", RE.cat (rstr "Jun") (ropt (rstr "e")), RE.cat (rstr "Jul") (ropt (rstr "y")),
      RE.cat (rstr "Aug") (ropt (rstr "ust")), RE.cat (rstr "Sep") (ropt (rstr "tember")),
      RE.cat (rstr "Oct") (ropt (rstr "ober")), RE.cat (rstr "Nov") (ropt (rstr "ember")),
      RE.cat (rstr "Dec") (ropt (rstr "ember"))],
    rplus clsS, rrange clsD 1 2, RE.ch ',', rplus clsS, rrep clsD 4, RE.wordB],
  rcatL [RE.wordB, rrange clsD 1 2, RE.ch '/', rrange clsD 1 2, RE.ch '/',
    rrange clsD 2 4, RE.wordB],
  rcatL [RE.wordB, rrange clsD 1 2, RE.ch '-', rrange clsD 1 2, RE.ch '-',
    rrange clsD 2 4, RE.wordB]]

/-- `"money"` entity pattern (source line 919). -/
def money_re : RE := raltL [
  rcatL [RE.ch '$', RE.star clsS, rplus clsD, RE.star (rcatL [RE.ch ',', rplus clsD]),
    ropt (rcatL [RE.ch '.', rplus clsD])],
  rcatL [RE.wordB, rplus clsD, RE.star (rcatL [RE.ch ',', rplus clsD]),
    ropt (rcatL [RE.ch '.', rplus clsD]), RE.star clsS,
    raltL [rstr "dollars", rstr "USD", RE.cat (rstr "Rs") (ropt (RE.ch '.')),
      rstr "INR", RE.ch '£', RE.ch '€']]]

/-- `"person"` entity pattern (source line 920). -/
def person_re : RE :=
  rcatL [RE.wordB, clsUp, rplus clsLo, RE.ch ' ', clsUp, rplus clsLo,
    ropt (rcatL [rplus clsS, clsUp, rplus clsLo]), RE.wordB]

/-- `"organization"` entity pattern (source line 921). -/
def organization_re : RE :=
  rcatL [RE.wordB,
    rplus (rcatL [clsUp, RE.star clsLo, RE.star clsS,
      ropt (raltL [RE.ch '&', rstr "and"]), RE.star clsS]),
    raltL [rcatL [RE.ch 'L', ropt (RE.ch '.'), RE.ch 'L', ropt (RE.ch '.'),
        RE.ch 'C', ropt (RE.ch '.')],
      RE.cat (rstr "Inc") (ropt (RE.ch '.')), RE.cat (rstr "Ltd") (ropt (RE.ch '.')),
      rstr "Corporation", RE.cat (rstr "Corp") (ropt (RE.ch '.')),
      rstr "Company", RE.cat (rstr "Co") (ropt (RE.ch '.'))],
    RE.wordB]

/-- `"address"` entity pattern (source line 922). -/
def address_re : RE :=
  rcatL [RE.wordB, rplus clsD, rplus clsS,
    rplus (RE.cls ([('A', 'Z'), ('a', 'z'), ('0', '9')] ++ spaceRanges
      ++ [(',', ','), ('.', '.')])),
    RE.wordB,
    raltL [rstr "Street", rstr "St", rstr "Avenue", rstr "Ave", rstr "Road", rstr "Rd",
      rstr "Boulevard", rstr "Blvd", rstr "Lane", rstr "Ln", rstr "Drive", rstr "Dr",
      rstr "Court", rstr "Ct", rstr "Plaza", rstr "Plz", rstr "Terrace", rstr "Ter",
      rstr "Place", rstr "Pl"],
    RE.wordB]

/-- `[-.\s]` separator class of the phone pattern. -/
def clsPhoneSep : RE := RE.cls ([('-', '-'), ('.', '.')] ++ spaceRanges)

/-- `"phone"` entity pattern (source line 923). -/
def phone_re : RE :=
  rcatL [RE.wordB, ropt (rcatL [RE.ch '+', rrange clsD 1 3, ropt clsS]),
    raltL [rcatL [RE.ch '(', rrep clsD 3, RE.ch ')'], rrep clsD 3],
    ropt clsPhoneSep, rrep clsD 3, ropt clsPhoneSep, rrep clsD 4, RE.wordB]

/-- `"email"` entity pattern (source line 924). -/
def email_re : RE :=
  rcatL [RE.wordB,
    rplus (RE.cls [('A', 'Z'), ('a', 'z'), ('0', '9'), ('.', '.'), ('_', '_'),
      ('%', '%'), ('+', '+'), ('-', '-')]),
    RE.ch '@',
    rplus (RE.cls [('A', 'Z'), ('a', 'z'), ('0', '9'), ('.', '.'), ('-', '-')]),
    RE.ch '.',
    ratleast (RE.cls [('A', 'Z'), ('|', '|'), ('a', 'z')]) 2, RE.wordB]

/-- `"url"` entity pattern (source line 925). -/
def url_re : RE :=
  rcatL [RE.wordB, rstr "http", ropt (RE.ch 's'), rstr "://", ropt (rstr "www."),
    rrange (RE.cls [('-', '-'), ('a', 'z'), ('A', 'Z'), ('0', '9'), ('@', '@'),
      (':', ':'), ('%', '%'), ('.', '.'), ('_', '_'), ('+', '+'), ('~', '~'),
      ('#', '#'), ('=', '=')]) 1 256,
    RE.ch '.',
    rrange (RE.cls [('a', 'z'), ('A', 'Z'), ('0', '9'), ('(', '('), (')', ')')]) 1 6,
    RE.wordB,
    RE.star (RE.cls [('-', '-'), ('a', 'z'), ('A', 'Z'), ('0', '9'), ('(', '('),
      (')', ')'), ('@', '@'), (':', ':'), ('%', '%'), ('_', '_'), ('+', '+'),
      ('.', '.'), ('~', '~'), ('#', '#'), ('?', '?'), ('&', '&'), ('/', '/'),
      ('=', '=')])]

/-- `"clause"` entity pattern (source line 926). -/
def clause_re : RE :=
  rcatL [RE.wordB, raltL [rstr "Section", rstr "Clause", rstr "Article", rstr "Paragraph"],
    rplus clsS, rplus clsD, RE.star (rcatL [RE.ch '.', rplus clsD])]

/-- `"percentage"` entity pattern (source line 927). -/
def percentage_re : RE :=
  rcatL [RE.wordB, rplus clsD, ropt (rcatL [RE.ch '.', rplus clsD]), RE.star clsS,
    RE.ch '%']

/-- `"party"` contract pattern (source line 933). -/
def party_re : RE := raltL [
  rcatL [RE.wordB, rstr "party of the ", raltL [rstr "first", rstr "second"],
    rstr " part", RE.wordB],
  rcatL [RE.wordB, rstr "the ",
    raltL [rstr "seller", rstr "buyer", rstr "lessor", rstr "lessee", rstr "vendor",
      rstr "purchaser", rstr "landlord", rstr "tenant", rstr "licensor", rstr "licensee"],
    RE.wordB]]

/-- `"effective_date"` contract pattern (source line 934). -/
def effective_date_re : RE := raltL [
  rcatL [RE.wordB, rstr "effective date", RE.wordB],
  rcatL [RE.wordB, rstr "commencement date", RE.wordB]]

/-- `"termination"` contract pattern (source line 935). -/
def termination_re : RE := raltL [
  rcatL [RE.wordB, rstr "termination", RE.wordB],
  rcatL [RE.wordB, rstr "expiration", RE.wordB],
  rcatL [RE.wordB, rstr "cancellation", RE.wordB]]

/-- `"governing_law"` contract pattern (source line 936). -/
def governing_law_re : RE := raltL [
  rcatL [RE.wordB, rstr "governing law", RE.wordB],
  rcatL [RE.wordB, rstr "jurisdiction", RE.wordB],
  rcatL [RE.wordB, rstr "venue", RE.wordB]]

/-- `"indemnity"` contract pattern (source line 937). -/
def indemnity_re : RE := raltL [
  rcatL [RE.wordB, rstr "indemnity", RE.wordB],
  rcatL [RE.wordB, rstr "indemnification", RE.wordB],
  rcatL [RE.wordB, rstr "hold harmless", RE.wordB]]

/-- `"warranty"` contract pattern (source line 938). -/
def warranty_re : RE := raltL [
  rcatL [RE.wordB, rstr "warranty", RE.wordB],
  rcatL [RE.wordB, rstr "guarantee", RE.wordB],
  rcatL [RE.wordB, rstr "represent and warrant", RE.wordB]]

/-- `"citation"` judgment pattern (source line 942). -/
def citation_re : RE := raltL [
  rcatL [RE.wordB, rplus clsD, rplus clsS, rplus (RE.cls [('A', 'Z'), ('a', 'z')]),
    rplus clsS, rplus clsD, RE.wordB],
  rcatL [RE.wordB, RE.ch '[', rrep clsD 4, RE.ch ']', rplus clsS, rplus clsW,
    rplus clsS, rplus clsD, RE.wordB]]

/-- `"court"` judgment pattern (source line 943). -/
def court_re : RE :=
  rcatL [RE.wordB,
    raltL [rstr "Supreme Court", rstr "High Court", rstr "District Court",
      rstr "Federal Court", rstr "Appellate Court", rstr "Court of Appeals"],
    RE.wordB]

/-- `"judge"` judgment pattern (source line 944). -/
def judge_re : RE := raltL [
  rcatL [RE.wordB, rstr "Justice", rplus clsS, clsUp, rplus clsLo, RE.wordB],
  rcatL [RE.wordB, rstr "Judge", rplus clsS, clsUp, rplus clsLo, RE.wordB],
  rcatL [RE.wordB, rstr "Hon", ropt (RE.ch apos), rstr "ble", rplus clsS, clsUp,
    rplus clsLo, RE.wordB]]

/-- `"statute"` judgment pattern (source line 945). -/
def statute_re : RE :=
  rcatL [RE.wordB, raltL [rstr "Act", rstr "Code", rstr "Statute", rstr "Law",
    rstr "Regulation"], rplus clsS, rstr "of", rplus clsS, rrep clsD 4, RE.wordB]

/-- Python `str.upper()` for the ASCII entity-category names. -/
def pyUpper (s : String) : String := ⟨s.data.map Char.toUpper⟩

/-- An extracted entity: `{"word": ..., "entity": ...}` (source line 953). -/
structure Entity where
  word : String
  entity : String
deriving DecidableEq, Repr

/-- The `patterns` dict of `_extract_legal_entities` (source lines
917-946), in insertion order, with the contract and judgment `update`s
appended at the end (their keys are fresh, so `dict.update` appends). -/
def entity_patterns (doc_type : String) : List (String × RE) :=
  let patterns := [("date", date_re), ("money", money_re), ("person", person_re),
    ("organization", organization_re), ("address", address_re), ("phone", phone_re),
    ("email", email_re), ("url", url_re), ("clause", clause_re),
    ("percentage", percentage_re)]
  if doc_type = "contract" then
    patterns ++ [("party", party_re), ("effective_date", effective_date_re),
      ("termination", termination_re), ("governing_law", governing_law_re),
      ("indemnity", indemnity_re), ("warranty", warranty_re)]
  else if doc_type = "judgment" then
    patterns ++ [("citation", citation_re), ("court", court_re), ("judge", judge_re),
      ("statute", statute_re)]
  else patterns

/-- `_extract_legal_entities` (source lines 903-955), with the `re`
library's `finditer` as a parameter (`pyFindAll` is the concrete engine):
every pattern in table order, every nonempty match in text order, entity
tag uppercased, truncated to the first 20 entries overall. -/
def extract_legal_entities (finditer : RE → String → List String)
    (text doc_type : String) : List Entity :=
  let entities := (entity_patterns doc_type).foldl (fun acc p =>
    acc ++ ((finditer p.2 text).filter (fun m => m ≠ "")).map
      (fun m => Entity.mk m (pyUpper p.1))) []
  entities.take 20

theorem maxStep_foldl_decomp (rest : List (String × ℚ)) (p : String × ℚ) :
    ∃ l1 l2, p :: rest = l1 ++ (rest.foldl maxStep p) :: l2
      ∧ (∀ q ∈ l1, q.2 < (rest.foldl maxStep p).2)
      ∧ (∀ q ∈ l2, q.2 ≤ (rest.foldl maxStep p).2) := by
  induction rest generalizing p with
  | nil => exact ⟨[], [], rfl, by simp, by simp⟩
  | cons q rest ih =>
    by_cases h : p.2 < q.2
    · have hm : (q :: rest).foldl maxStep p = rest.foldl maxStep q := by
        show rest.foldl maxStep (maxStep p q) = rest.foldl maxStep q
        rw [show maxStep p q = q from if_pos h]
      obtain ⟨l1, l2, heq, h1, h2⟩ := ih q
      rw [hm]
      have hr : p.2 < (rest.foldl maxStep q).2 := by
        rcases l1 with _ | ⟨a, l1'⟩
        · have hq : q = rest.foldl maxStep q := by
            simpa using congrArg List.head? heq
          calc p.2 < q.2 := h
            _ = (rest.foldl maxStep q).2 := congrArg Prod.snd hq
        · have hqa : q = a := by simpa using congrArg List.head? heq
          exact lt_trans h (hqa ▸ h1 a (List.mem_cons_self a l1'))
      refine ⟨p :: l1, l2, ?_, ?_, h2⟩
      · rw [List.cons_append]; exact congrArg (p :: ·) heq
      · intro x hx
        rcases List.mem_cons.1 hx with rfl | hx
        · exact hr
        · exact h1 x hx
    · have hm : (q :: rest).foldl maxStep p = rest.foldl maxStep p := by
        show rest.foldl maxStep (maxStep p q) = rest.foldl maxStep p
        rw [show maxStep p q = p from if_neg h]
      obtain ⟨l1, l2, heq, h1, h2⟩ := ih p
      rw [hm]
      rcases l1 with _ | ⟨a, l1'⟩
      · have hp : p = rest.foldl maxStep p := by
          simpa using congrArg List.head? heq
        have hl2 : rest = l2 := by
          simpa using congrArg List.tail heq
        refine ⟨[], q :: rest, ?_, by simp, ?_⟩
        · rw [List.nil_append]; exact congrArg (· :: q :: rest) hp
        · intro x hx
          rcases List.mem_cons.1 hx with rfl | hx
          · exact (le_of_not_lt h).trans (le_of_eq (congrArg Prod.snd hp))
          · exact h2 x (hl2 ▸ hx)
      · have hpa : p = a := by simpa using congrArg List.head? heq
        have htl : rest = l1' ++ rest.foldl maxStep p :: l2 := by
          simpa using congrArg List.tail heq
        have hpr : p.2 < (rest.foldl maxStep p).2 := by
          have := h1 a (List.mem_cons_self a l1')
          rwa [← hpa] at this
        refine ⟨p :: q :: l1', l2, ?_, ?_, h2⟩
        · rw [List.cons_append, List.cons_append]
          exact congrArg (fun t => p :: q :: t) htl
        · intro x hx
          rcases List.mem_cons.1 hx with rfl | hx
          · exact hpr
          · rcases List.mem_cons.1 hx with rfl | hx
            · exact lt_of_le_of_lt (le_of_not_lt h) hpr
            · exact h1 x (List.mem_cons_of_mem a hx)

theorem maxKeyFirst_mem {l : List (String × ℚ)} {p : String × ℚ}
    (h : maxKeyFirst l = some p) : p ∈ l := by
  match l with
  | [] => simp [maxKeyFirst] at h
  | q :: rest =>
    simp only [maxKeyFirst, Option.some.injEq] at h
    obtain ⟨l1, l2, heq, -, -⟩ := maxStep_foldl_decomp rest q
    rw [h] at heq
    rw [heq]
    simp

theorem maxKeyFirst_eq_nil {l : List (String × ℚ)} (h : maxKeyFirst l = none) : l = [] := by
  cases l with
  | nil => rfl
  | cons p rest => simp [maxKeyFirst] at h

theorem string_data_append (s t : String) : (s ++ t).data = s.data ++ t.data := rfl

theorem startsList_append_of {p l : List Char} (h : startsList p l = true) (m : List Char) :
    startsList p (l ++ m) = true := by
  induction p generalizing l with
  | nil => rfl
  | cons c cs ih =>
    cases l with
    | nil => simp [startsList] at h
    | cons a as =>
      simp only [startsList, List.cons_append, Bool.and_eq_true] at h ⊢
      exact ⟨h.1, ih h.2⟩

theorem strEndsWith_append (s t u : String) (h : strEndsWith t u = true) :
    strEndsWith (s ++ t) u = true := by
  unfold strEndsWith at h ⊢
  rw [string_data_append, List.reverse_append]
  exact startsList_append_of h _

theorem alookup_dictInsert_self (d : List (String × String)) (k v : String) :
    alookup (dictInsert d k v) k = some v := by
  induction d with
  | nil => simp [dictInsert, alookup]
  | cons p rest ih =>
    obtain ⟨k', v'⟩ := p
    by_cases hk : k' = k
    · simp [dictInsert, hk, alookup]
    · simp [dictInsert, hk, alookup, ih]

theorem dictInsert_not_found (d : List (String × String)) (k v : String)
    (h : alookup d k = none) : dictInsert d k v = d ++ [(k, v)] := by
  induction d with
  | nil => rfl
  | cons p rest ih =>
    obtain ⟨k', v'⟩ := p
    simp only [alookup] at h
    by_cases hk : k' = k
    · rw [if_pos hk] at h
      exact absurd h (by simp)
    · rw [if_neg hk] at h
      simp [dictInsert, hk, ih h]

theorem identify_all_zero (count : String → String → Nat) (text : String)
    (hw : countWords text ≠ 0) (hz : ∀ p ∈ document_patterns, count p.2 text = 0) :
    identify_document_type count text = some ("contract", 0) := by
  have e1 : count "(?i)(agreement|contract|terms|conditions|parties|clause|hereby|agree|consideration)" text = 0 :=
    hz ("contract", "(?i)(agreement|contract|terms|conditions|parties|clause|hereby|agree|consideration)") (by simp [document_patterns])
  have e2 : count "(?i)(judgment|court|ruling|judge|versus|petitioner|respondent|plaintiff|defendant|bench|justice|order|decree)" text = 0 :=
    hz ("judgment", "(?i)(judgment|court|ruling|judge|versus|petitioner|respondent|plaintiff|defendant|bench|justice|order|decree)") (by simp [document_patterns])
  have e3 : count "(?i)(act|section|statute|law|regulation|provision|legislature|parliament|amendment|clause|bill)" text = 0 :=
    hz ("legislation", "(?i)(act|section|statute|law|regulation|provision|legislature|parliament|amendment|clause|bill)") (by simp [document_patterns])
  have e4 : count "(?i)(testament|will|bequeath|estate|beneficiary|executor|probate|heir|inheritance|devise|legacy)" text = 0 :=
    hz ("will", "(?i)(testament|will|bequeath|estate|beneficiary|executor|probate|heir|inheritance|devise|legacy)") (by simp [document_patterns])
  have e5 : count "(?i)(affidavit|sworn|deponent|oath|affirm|verification|notary|attested)" text = 0 :=
    hz ("affidavit", "(?i)(affidavit|sworn|deponent|oath|affirm|verification|notary|attested)") (by simp [document_patterns])
  have e6 : count "(?i)(notice|hereby|inform|attention|pursuant|announce|adjourned|meeting)" text = 0 :=
    hz ("notice", "(?i)(notice|hereby|inform|attention|pursuant|announce|adjourned|meeting)") (by simp [document_patterns])
  have e7 : count "(?i)(opinion|advice|counsel|consult|recommended|suggested|pursuant to)" text = 0 :=
    hz ("legal_opinion", "(?i)(opinion|advice|counsel|consult|recommended|suggested|pursuant to)") (by simp [document_patterns])
  have e8 : count "(?i)(memorandum|understanding|mou|intent|non-binding)" text = 0 :=
    hz ("mou", "(?i)(memorandum|understanding|mou|intent|non-binding)") (by simp [document_patterns])
  unfold identify_document_type
  rw [if_neg hw]
  have hs : classifierScores count text =
      [("contract", 0), ("judgment", 0), ("legislation", 0), ("will", 0),
        ("affidavit", 0), ("notice", 0), ("legal_opinion", 0), ("mou", 0)] := by
    simp [classifierScores, document_patterns, pymin, e1, e2, e3, e4, e5, e6, e7, e8]
  rw [hs]
  simp [maxKeyFirst, maxStep]

theorem placeholder_marker : strStartsWith translation_placeholder "[Translation" = true := by
  decide

theorem handle_hit (neural : Option (String → String → Option String))
    (sp atr : List (String × List (String × String)))
    (cache : List (String × String)) (text target_lang v : String)
    (h : alookup cache (text ++ "_" ++ target_lang) = some v) :
    handle_translation_request neural sp atr cache text target_lang =
      ⟨⟨if v = "" then translation_placeholder else v, text, "en", target_lang⟩,
        cache, false, false, false⟩ := by
  unfold handle_translation_request
  simp only [h]

theorem handle_miss (neural : Option (String → String → Option String))
    (sp atr : List (String × List (String × String)))
    (cache : List (String × String)) (text target_lang : String)
    (h : alookup cache (text ++ "_" ++ target_lang) = none) :
    handle_translation_request neural sp atr cache text target_lang =
      ⟨⟨if attempt_translation neural sp atr text target_lang = ""
          then translation_placeholder else attempt_translation neural sp atr text target_lang,
        text, "en", target_lang⟩,
        (if (attempt_translation neural sp atr text target_lang ≠ ""
            && !(strStartsWith (attempt_translation neural sp atr text target_lang) "[Translation"))
          then dictInsert cache (text ++ "_" ++ target_lang)
            (attempt_translation neural sp atr text target_lang)
          else cache),
        neural.isSome,
        decide (neural_translation neural text target_lang = ""),
        ((attempt_translation neural sp atr text target_lang ≠ ""
            && !(strStartsWith (attempt_translation neural sp atr text target_lang) "[Translation"))
          && decide ((if (attempt_translation neural sp atr text target_lang ≠ ""
                && !(strStartsWith (attempt_translation neural sp atr text target_lang) "[Translation"))
              then dictInsert cache (text ++ "_" ++ target_lang)
                (attempt_translation neural sp atr text target_lang)
              else cache).length % 10 = 0))⟩ := by
  unfold handle_translation_request
  simp only [h]

/-- C1: the claim says `classify("")` returns `("unknown", 0.0)` and
raises no exception, but `_identify_document_type` on the empty string
computes `len("".split()) = 0` and the very first score expression
`len(matches) / (len(text.split()) / 100)` divides by `0 / 100 = 0.0`,
raising `ZeroDivisionError` (modelled as `none`), for every match-counting
function. The `if not scores` guard that would return
`("unknown", 0.0)` is never reached. -/
theorem classify_empty_text_division_by_zero (count : String → String → Nat) :
    identify_document_type count "" = none := rfl

/-- C2: whenever `_identify_document_type` returns, the returned
confidence lies in the closed interval `[0, 1]`: every score is
`min(nonnegative, 1.0)` and the returned confidence is one of the scores
(or the `0.0` of the empty-scores branch). -/
theorem classify_confidence_in_unit_interval (count : String → String → Nat)
    (text ty : String) (c : ℚ)
    (h : identify_document_type count text = some (ty, c)) : 0 ≤ c ∧ c ≤ 1 := by
  unfold identify_document_type at h
  split at h
  · exact absurd h (by simp)
  · cases hmk : maxKeyFirst (classifierScores count text) with
    | none =>
      rw [hmk] at h
      simp only [Option.some.injEq, Prod.mk.injEq] at h
      rw [← h.2]
      norm_num
    | some best =>
      rw [hmk] at h
      simp only [Option.some.injEq] at h
      have hmem := maxKeyFirst_mem hmk
      rw [h] at hmem
      simp only [classifierScores, List.mem_map] at hmem
      obtain ⟨p, -, hpe⟩ := hmem
      have hc : c = pymin ((count p.2 text : ℚ) / ((countWords text : ℚ) / 100)) 1 :=
        (congrArg Prod.snd hpe).symm
      have hq : 0 ≤ ((count p.2 text : ℚ) / ((countWords text : ℚ) / 100)) :=
        div_nonneg (Nat.cast_nonneg _) (div_nonneg (Nat.cast_nonneg _) (by norm_num))
      rw [hc]
      unfold pymin
      split
      · exact ⟨hq, by assumption⟩
      · exact ⟨by norm_num, le_refl 1⟩

/-- C2 witness: with the all-zero match counter on `"hello world"`,
classification returns confidence 0, which lies in `[0, 1]`. -/
theorem classify_confidence_in_unit_interval_witness : 0 ≤ (0 : ℚ) ∧ (0 : ℚ) ≤ 1 :=
  classify_confidence_in_unit_interval (fun _ _ => 0) "hello world" "contract" 0
    (identify_all_zero (fun _ _ => 0) "hello world" (by decide) (fun _ _ => rfl))

/-- C3: the returned pair is the first entry of the score list attaining
the maximal score: every earlier entry scores strictly less and every
later entry scores at most the returned confidence; and the score list is
iterated in the document order of the static pattern table (contract,
judgment, legislation, will, affidavit, notice, legal_opinion, mou), not
alphabetical order. -/
theorem classify_picks_first_max_in_table_order (count : String → String → Nat)
    (text ty : String) (c : ℚ)
    (h : identify_document_type count text = some (ty, c)) :
    (classifierScores count text).map Prod.fst =
      ["contract", "judgment", "legislation", "will", "affidavit", "notice",
        "legal_opinion", "mou"]
    ∧ ∃ l1 l2, classifierScores count text = l1 ++ (ty, c) :: l2
        ∧ (∀ q ∈ l1, q.2 < c) ∧ (∀ q ∈ l2, q.2 ≤ c) := by
  refine ⟨by simp [classifierScores, document_patterns], ?_⟩
  unfold identify_document_type at h
  split at h
  · exact absurd h (by simp)
  · cases hmk : maxKeyFirst (classifierScores count text) with
    | none =>
      have hnil := maxKeyFirst_eq_nil hmk
      have hlen := congrArg List.length hnil
      simp [classifierScores, document_patterns] at hlen
    | some best =>
      rw [hmk] at h
      simp only [Option.some.injEq] at h
      cases hsc : classifierScores count text with
      | nil =>
        rw [hsc] at hmk
        simp [maxKeyFirst] at hmk
      | cons p rest =>
        rw [hsc] at hmk
        simp only [maxKeyFirst, Option.some.injEq] at hmk
        obtain ⟨l1, l2, heq, h1, h2⟩ := maxStep_foldl_decomp rest p
        rw [hmk, h] at heq h1 h2
        exact ⟨l1, l2, heq, h1, h2⟩

/-- C3 witness: with the all-zero match counter on `"hello world"` all
eight scores tie at 0 and the first table entry, contract, wins. -/
theorem classify_picks_first_max_in_table_order_witness :
    (classifierScores (fun _ _ => 0) "hello world").map Prod.fst =
      ["contract", "judgment", "legislation", "will", "affidavit", "notice",
        "legal_opinion", "mou"]
    ∧ ∃ l1 l2, classifierScores (fun _ _ => 0) "hello world"
        = l1 ++ ("contract", (0 : ℚ)) :: l2
        ∧ (∀ q ∈ l1, q.2 < (0 : ℚ)) ∧ (∀ q ∈ l2, q.2 ≤ (0 : ℚ)) :=
  classify_picks_first_max_in_table_order (fun _ _ => 0) "hello world" "contract" 0
    (identify_all_zero (fun _ _ => 0) "hello world" (by decide) (fun _ _ => rfl))

/-- C10: whenever classification completes, the returned type is one of
the 8 known types of the pattern table and never `"unknown"`; the score
map always has 8 entries (so the empty-scores branch is unreachable); and
a text with at least one word matching no pattern at all is classified as
`("contract", 0.0)`, contract being the first table entry. -/
theorem classify_never_unknown (count : String → String → Nat) (text : String) :
    (∀ ty c, identify_document_type count text = some (ty, c) →
      ty ∈ ["contract", "judgment", "legislation", "will", "affidavit", "notice",
        "legal_opinion", "mou"] ∧ ty ≠ "unknown")
    ∧ (classifierScores count text).length = 8
    ∧ (countWords text ≠ 0 → (∀ p ∈ document_patterns, count p.2 text = 0) →
        identify_document_type count text = some ("contract", 0)) := by
  refine ⟨?_, by simp [classifierScores, document_patterns],
    fun hw hz => identify_all_zero count text hw hz⟩
  intro ty c h
  unfold identify_document_type at h
  split at h
  · exact absurd h (by simp)
  · cases hmk : maxKeyFirst (classifierScores count text) with
    | none =>
      have hnil := maxKeyFirst_eq_nil hmk
      have hlen := congrArg List.length hnil
      simp [classifierScores, document_patterns] at hlen
    | some best =>
      rw [hmk] at h
      simp only [Option.some.injEq] at h
      have hmem := maxKeyFirst_mem hmk
      rw [h] at hmem
      have hty : ty ∈ (classifierScores count text).map Prod.fst :=
        List.mem_map.2 ⟨(ty, c), hmem, rfl⟩
      rw [show (classifierScores count text).map Prod.fst =
          ["contract", "judgment", "legislation", "will", "affidavit", "notice",
            "legal_opinion", "mou"] from by simp [classifierScores, document_patterns]] at hty
      refine ⟨hty, fun hu => ?_⟩
      rw [hu] at hty
      exact absurd hty (by decide)

/-- C10 witness: the all-zero match counter on the two-word text
`"hello world"` yields `("contract", 0)`. -/
theorem classify_never_unknown_witness :
    identify_document_type (fun _ _ => 0) "hello world" = some ("contract", 0) :=
  (classify_never_unknown (fun _ _ => 0) "hello world").2.2 (by decide) (fun _ _ => rfl)

/-- C4: `_extract_legal_entities` truncates the whole accumulated entity
sequence with `entities[:20]`, a global cap on the result, for every
finditer implementation, text and document type; the function is total,
so an empty result is a valid outcome. -/
theorem extract_entities_at_most_20 (finditer : RE → String → List String)
    (text doc_type : String) :
    (extract_legal_entities finditer text doc_type).length ≤ 20 := by
  unfold extract_legal_entities
  exact List.length_take_le 20 _

set_option maxRecDepth 10000 in
/-- C5 counterexample: the generated analysis does not end with the
substring "DISCLAIMER: ... construed as legal advice." — the source
appends one final paragraph that continues with "Please consult with a
qualified legal professional for advice specific to your situation.", so
the claimed substring is an infix but not a suffix. Shown on the
legislation template (whose applicable-law list is empty, so no sampling
is involved). -/
theorem analysis_disclaimer_not_suffix :
    strEndsWith (generate_legal_analysis (fun l => l.take 3) "legislation" "")
      "DISCLAIMER: This analysis is provided for informational purposes only and should not be construed as legal advice."
      = false := by decide

set_option maxRecDepth 10000 in
/-- C5 (amended): for every sampling function, document type and text, the
generated analysis ends with the full disclaimer paragraph "DISCLAIMER:
This analysis is provided for informational purposes only and should not
be construed as legal advice. Please consult with a qualified legal
professional for advice specific to your situation." — the substring
claimed by the spec is an infix of this suffix, not itself a suffix. -/
theorem analysis_ends_with_disclaimer_paragraph (sample : List String → List String)
    (doc_type text : String) :
    strEndsWith (generate_legal_analysis sample doc_type text)
      "DISCLAIMER: This analysis is provided for informational purposes only and should not be construed as legal advice. Please consult with a qualified legal professional for advice specific to your situation."
      = true := by
  unfold generate_legal_analysis
  exact strEndsWith_append _ disclaimer_text _ (by decide)

/-- C6 counterexample: on the scenario text, the greedy PERSON pattern
`\b[A-Z][a-z]+ [A-Z][a-z]+(?:\s+[A-Z][a-z]+)?\b` matches
"Contact John Smith" (the optional third capitalized word absorbs
"Smith" after "Contact John"), so no extracted entity has matched text
exactly "John Smith". -/
theorem extract_scenario_no_person_john_smith :
    Entity.mk "John Smith" "PERSON" ∉
      extract_legal_entities pyFindAll
        "Contact John Smith at john.smith@example.com or call 555-123-4567" "unknown" := by
  decide

/-- C6 (amended): the extraction on the scenario text returns exactly a
PERSON entry "Contact John Smith", a PHONE entry "555-123-4567" and an
EMAIL entry "john.smith@example.com", in pattern-table order; the EMAIL
and PHONE entries are as the claim states, but the PERSON entry's matched
text is "Contact John Smith", not "John Smith". -/
theorem extract_scenario_entities :
    extract_legal_entities pyFindAll
      "Contact John Smith at john.smith@example.com or call 555-123-4567" "unknown"
      = [Entity.mk "Contact John Smith" "PERSON",
         Entity.mk "555-123-4567" "PHONE",
         Entity.mk "john.smith@example.com" "EMAIL"] := by decide

/-- C7: if the first `handle_translation_request` call returns a
non-placeholder `translated_text` (it then either hit the cache or stored
its result under the key built from `(text, target_lang)`), a second call
with identical arguments takes the cache-hit path: it returns the
byte-identical `translated_text`, does not invoke the neural model, does
not run the dictionary fallback, and leaves the cache unchanged. -/
theorem translate_warm_cache_idempotent
    (neural : Option (String → String → Option String))
    (sp atr : List (String × List (String × String)))
    (cache : List (String × String)) (text target_lang : String)
    (h : strStartsWith
        ((handle_translation_request neural sp atr cache text target_lang).result.translated_text)
        "[Translation" = false) :
    (handle_translation_request neural sp atr
        (handle_translation_request neural sp atr cache text target_lang).cache
        text target_lang).result.translated_text
      = (handle_translation_request neural sp atr cache text target_lang).result.translated_text
    ∧ (handle_translation_request neural sp atr
        (handle_translation_request neural sp atr cache text target_lang).cache
        text target_lang).modelInvoked = false
    ∧ (handle_translation_request neural sp atr
        (handle_translation_request neural sp atr cache text target_lang).cache
        text target_lang).fallbackInvoked = false
    ∧ (handle_translation_request neural sp atr
        (handle_translation_request neural sp atr cache text target_lang).cache
        text target_lang).cache
      = (handle_translation_request neural sp atr cache text target_lang).cache := by
  have key_facts :
      alookup (handle_translation_request neural sp atr cache text target_lang).cache
          (text ++ "_" ++ target_lang)
        = some ((handle_translation_request neural sp atr cache text target_lang).result.translated_text)
      ∧ (handle_translation_request neural sp atr cache text target_lang).result.translated_text
        ≠ "" := by
    cases hcl : alookup cache (text ++ "_" ++ target_lang) with
    | some v =>
      have e := handle_hit neural sp atr cache text target_lang v hcl
      have htt : (handle_translation_request neural sp atr cache text target_lang).result.translated_text
          = (if v = "" then translation_placeholder else v) :=
        congrArg (fun o => o.result.translated_text) e
      have hcache : (handle_translation_request neural sp atr cache text target_lang).cache
          = cache := congrArg (fun o => o.cache) e
      by_cases hv : v = ""
      · rw [htt, if_pos hv, placeholder_marker] at h
        exact absurd h (by simp)
      · rw [htt, if_neg hv, hcache]
        exact ⟨hcl, hv⟩
    | none =>
      have e := handle_miss neural sp atr cache text target_lang hcl
      have htt : (handle_translation_request neural sp atr cache text target_lang).result.translated_text
          = (if attempt_translation neural sp atr text target_lang = ""
              then translation_placeholder
              else attempt_translation neural sp atr text target_lang) :=
        congrArg (fun o => o.result.translated_text) e
      have hcache : (handle_translation_request neural sp atr cache text target_lang).cache
          = (if (attempt_translation neural sp atr text target_lang ≠ ""
              && !(strStartsWith (attempt_translation neural sp atr text target_lang) "[Translation"))
            then dictInsert cache (text ++ "_" ++ target_lang)
              (attempt_translation neural sp atr text target_lang)
            else cache) :=
        congrArg (fun o => o.cache) e
      by_cases h1 : attempt_translation neural sp atr text target_lang = ""
      · rw [htt, if_pos h1, placeholder_marker] at h
        exact absurd h (by simp)
      · rw [htt, if_neg h1] at h
        have hstore : (attempt_translation neural sp atr text target_lang ≠ ""
            && !(strStartsWith (attempt_translation neural sp atr text target_lang) "[Translation"))
            = true := by
          simp [h1, h]
        rw [htt, if_neg h1, hcache, if_pos hstore]
        exact ⟨alookup_dictInsert_self cache _ _, h1⟩
  obtain ⟨hl, hne⟩ := key_facts
  have e2 := handle_hit neural sp atr
    (handle_translation_request neural sp atr cache text target_lang).cache text target_lang
    ((handle_translation_request neural sp atr cache text target_lang).result.translated_text) hl
  refine ⟨?_, ?_, ?_, ?_⟩
  · simp only [e2]
    exact if_neg hne
  · simp only [e2]
  · simp only [e2]
  · simp only [e2]

/-- C7 witness: with no neural model, a one-phrase dictionary and an
empty cache, translating "Legal document" to "hi" caches "K"; a second
identical call returns "K" again from the cache and does not invoke the
model. -/
theorem translate_warm_cache_idempotent_witness :
    (handle_translation_request none [("hi", [("Legal document", "K")])] []
        (handle_translation_request none [("hi", [("Legal document", "K")])] [] []
          "Legal document" "hi").cache "Legal document" "hi").result.translated_text = "K"
    ∧ (handle_translation_request none [("hi", [("Legal document", "K")])] []
        (handle_translation_request none [("hi", [("Legal document", "K")])] [] []
          "Legal document" "hi").cache "Legal document" "hi").modelInvoked = false := by
  have h := translate_warm_cache_idempotent none [("hi", [("Legal document", "K")])] [] []
    "Legal document" "hi" (by decide)
  exact ⟨h.1.trans (by decide), h.2.1⟩

/-- C8: on a cache miss, when the produced translation is nonempty and not
the `"[Translation"` placeholder, it is inserted into the cache under the
key `f"{text}_{target_lang}"` (appended, so the entry count grows by one)
and `_save_translation_cache` is triggered exactly when the entry count
after the insertion is a multiple of 10; when no insertion happens, no
save occurs. -/
theorem translate_cache_insert_and_save_policy
    (neural : Option (String → String → Option String))
    (sp atr : List (String × List (String × String)))
    (cache : List (String × String)) (text target_lang : String)
    (hmiss : alookup cache (text ++ "_" ++ target_lang) = none) :
    ((attempt_translation neural sp atr text target_lang ≠ ""
        ∧ strStartsWith (attempt_translation neural sp atr text target_lang) "[Translation"
          = false) →
      (handle_translation_request neural sp atr cache text target_lang).cache
          = cache ++ [(text ++ "_" ++ target_lang,
              attempt_translation neural sp atr text target_lang)]
        ∧ (handle_translation_request neural sp atr cache text target_lang).cache.length
          = cache.length + 1
        ∧ ((handle_translation_request neural sp atr cache text target_lang).savedCache = true
          ↔ (cache.length + 1) % 10 = 0))
    ∧ ((attempt_translation neural sp atr text target_lang = ""
        ∨ strStartsWith (attempt_translation neural sp atr text target_lang) "[Translation"
          = true) →
      (handle_translation_request neural sp atr cache text target_lang).cache = cache
        ∧ (handle_translation_request neural sp atr cache text target_lang).savedCache
          = false) := by
  have e := handle_miss neural sp atr cache text target_lang hmiss
  have hcache : (handle_translation_request neural sp atr cache text target_lang).cache
      = (if (attempt_translation neural sp atr text target_lang ≠ ""
          && !(strStartsWith (attempt_translation neural sp atr text target_lang) "[Translation"))
        then dictInsert cache (text ++ "_" ++ target_lang)
          (attempt_translation neural sp atr text target_lang)
        else cache) :=
    congrArg (fun o => o.cache) e
  have hsaved : (handle_translation_request neural sp atr cache text target_lang).savedCache
      = ((attempt_translation neural sp atr text target_lang ≠ ""
          && !(strStartsWith (attempt_translation neural sp atr text target_lang) "[Translation"))
        && decide ((if (attempt_translation neural sp atr text target_lang ≠ ""
              && !(strStartsWith (attempt_translation neural sp atr text target_lang) "[Translation"))
            then dictInsert cache (text ++ "_" ++ target_lang)
              (attempt_translation neural sp atr text target_lang)
            else cache).length % 10 = 0)) :=
    congrArg (fun o => o.savedCache) e
  have hins := dictInsert_not_found cache (text ++ "_" ++ target_lang)
    (attempt_translation neural sp atr text target_lang) hmiss
  constructor
  · rintro ⟨h1, h2⟩
    have hstore : (attempt_translation neural sp atr text target_lang ≠ ""
        && !(strStartsWith (attempt_translation neural sp atr text target_lang) "[Translation"))
        = true := by
      simp [h1, h2]
    rw [if_pos hstore] at hcache hsaved
    rw [hcache, hins]
    have hlen : (cache ++ [(text ++ "_" ++ target_lang,
        attempt_translation neural sp atr text target_lang)]).length = cache.length + 1 := by
      simp
    refine ⟨rfl, hlen, ?_⟩
    rw [hsaved, hstore, hins, hlen]
    simp
  · intro h12
    have hstore : (attempt_translation neural sp atr text target_lang ≠ ""
        && !(strStartsWith (attempt_translation neural sp atr text target_lang) "[Translation"))
        = false := by
      rcases h12 with h1 | h2
      · simp [h1]
      · simp [h2]
    rw [if_neg (by rw [hstore]; exact Bool.false_ne_true)] at hcache hsaved
    rw [hsaved, hstore]
    exact ⟨hcache, by simp⟩

/-- C8 witness: with no model, a one-phrase dictionary and an empty cache,
the successful fallback translation is appended under the key
`"Legal document_hi"`; the new entry count is 1, not a multiple of 10, so
no save is triggered. -/
theorem translate_cache_insert_and_save_policy_witness :
    (handle_translation_request none [("hi", [("Legal document", "K")])] [] []
        "Legal document" "hi").cache = [("Legal document_hi", "K")]
    ∧ (handle_translation_request none [("hi", [("Legal document", "K")])] [] []
        "Legal document" "hi").savedCache = false := by
  have h := (translate_cache_insert_and_save_policy none [("hi", [("Legal document", "K")])]
    [] [] "Legal document" "hi" (by decide)).1 ⟨by decide, by decide⟩
  refine ⟨h.1.trans (by decide), ?_⟩
  have hs := h.2.2
  cases hb : (handle_translation_request none [("hi", [("Legal document", "K")])] [] []
      "Legal document" "hi").savedCache
  · rfl
  · rw [hb] at hs
    exact absurd (hs.1 rfl) (by decide)

theorem foldl_categories_nil (cats : List String) (acc : List String) :
    cats.foldl (fun acc category =>
      match alookup ([] : List (String × List String)) category with
      | some laws => acc ++ laws
      | none => acc) acc = acc := by
  induction cats generalizing acc with
  | nil => rfl
  | cons c cs ih => exact ih acc

/-- C9: `_get_applicable_laws` never errors and returns the empty list for
a jurisdiction missing from the framework table or a document type mapped
to no categories (legislation maps to the empty category list); otherwise
it returns the full concatenated statute list when it has at most 3
entries, and a 3-element selection from that list when it is longer
(`random.sample` is modelled by any function returning 3 of the given
elements). -/
theorem applicable_laws_spec (sample : List String → List String)
    (hlen : ∀ l : List String, 3 < l.length → (sample l).length = 3)
    (hmem : ∀ (l : List String) (x : String), x ∈ sample l → x ∈ l)
    (doc_type jurisdiction : String) :
    (alookup legal_frameworks jurisdiction = none →
      get_applicable_laws sample doc_type jurisdiction = [])
    ∧ (alookup category_map doc_type = none ∨ alookup category_map doc_type = some [] →
      get_applicable_laws sample doc_type jurisdiction = [])
    ∧ alookup category_map "legislation" = some []
    ∧ ((applicable_laws_all doc_type jurisdiction).length ≤ 3 →
      get_applicable_laws sample doc_type jurisdiction
        = applicable_laws_all doc_type jurisdiction)
    ∧ (3 < (applicable_laws_all doc_type jurisdiction).length →
      (get_applicable_laws sample doc_type jurisdiction).length = 3
        ∧ ∀ x ∈ get_applicable_laws sample doc_type jurisdiction,
            x ∈ applicable_laws_all doc_type jurisdiction) := by
  refine ⟨?_, ?_, rfl, ?_, ?_⟩
  · intro hj
    have hall : applicable_laws_all doc_type jurisdiction = [] := by
      unfold applicable_laws_all
      rw [hj]
      exact foldl_categories_nil _ []
    unfold get_applicable_laws
    rw [hall]
    rfl
  · intro hc
    have hall : applicable_laws_all doc_type jurisdiction = [] := by
      unfold applicable_laws_all
      rcases hc with hc | hc <;> rw [hc] <;> rfl
    unfold get_applicable_laws
    rw [hall]
    rfl
  · intro hle
    unfold get_applicable_laws
    rw [if_neg (Nat.not_lt.2 hle)]
  · intro hgt
    unfold get_applicable_laws
    rw [if_pos hgt]
    exact ⟨hlen _ hgt, fun x hx => hmem _ x hx⟩

/-- C9 witness: with the deterministic sampler `take 3`, the contract/india
selection has exactly 3 statutes, all drawn from india's civil and
commercial lists (the 9-element concatenation). -/
theorem applicable_laws_spec_witness :
    (get_applicable_laws (fun l => l.take 3) "contract" "india").length = 3
    ∧ ∀ x ∈ get_applicable_laws (fun l => l.take 3) "contract" "india",
        x ∈ applicable_laws_all "contract" "india" :=
  (applicable_laws_spec (fun l => l.take 3)
    (fun l hl => by rw [List.length_take]; exact min_eq_left (le_of_lt hl))
    (fun l x hx => List.take_subset 3 l hx)
    "contract" "india").2.2.2.2 (by decide)
